import Mathlib

/-!
A shallow embedding of the incremental sync engine of `singularity_sync`
(`src/main.rs`, `src/docker.rs`), together with theorems settling the
specification claims about it.

Modelling conventions:
* `DateTime<Utc>` timestamps are `Nat`, with `SystemTime::UNIX_EPOCH = 0`
  (the fold in `lastest_sync_timestamp` starts at the epoch, so every derived
  mark is ≥ epoch, and comparison with the epoch sentinel is `= 0`).
* The filesystem, the registry and external processes are an explicit
  environment (`Env`): the entries of the image directory, the chain of
  registry tag pages the successive GETs would return, and an oracle giving
  the spawn/exit result of each external process invocation.
* Side effects are collected in an `Effects` record: directories created,
  lines printed to stdout, process invocations performed and registry fetches
  issued.
* `Result<T>` values are `Except String T`; a Rust panic (out-of-bounds
  indexing/slicing) is the distinct `Outcome.panicked`.
-/

namespace SingularitySync

/-- A registry tag record (`struct Tag`, main.rs lines 24-28): a name and a
`last_updated` timestamp. -/
structure Tag where
  name : String
  last_updated : Nat
deriving Repr, DecidableEq

/-- One page of the registry tag listing (`struct TagResponse`, main.rs lines
30-36); `count` and `previous` are never read by the sync logic and are
omitted. -/
structure TagPage where
  results : List Tag
  next : Option String
deriving Repr, DecidableEq

/-- Substring containment on strings, modelling Rust `str::contains` for a
string pattern. -/
def containsSub (s sub : String) : Bool :=
  decide (sub.data <:+: s.data)

/-- One directory entry as observed by `lastest_sync_timestamp` (main.rs lines
76-126): the possible failure points of the Rust iteration (the `read_dir`
item itself erroring, `is_file`, `extension`, OS-string conversion, `stat`,
`modified`) together with the data read on the success path. -/
structure DirEntry where
  readErr : Bool
  isFile : Bool
  extension : Option String
  nameOk : Bool
  fileName : String
  statErr : Bool
  modifiedErr : Bool
  modified : Nat
deriving Repr, DecidableEq

/-- The filter chain of the closure in `lastest_sync_timestamp` (main.rs lines
77-126): returns the modification time of an entry that survives every check,
`none` for a skipped entry. -/
def entryTimestamp (image : String) (e : DirEntry) : Option Nat :=
  if e.readErr then none
  else if !e.isFile then none
  else match e.extension with
    | none => none
    | some ext =>
      if ext ≠ "sif" then none
      else if !e.nameOk then none
      else if !(containsSub e.fileName image) then none
      else if e.statErr then none
      else if e.modifiedErr then none
      else some e.modified

/-- `lastest_sync_timestamp` (main.rs lines 75-136): filter-map the directory
entries through the chain and fold to the maximum starting from the epoch
sentinel (`SystemTime::UNIX_EPOCH`, modelled as `0`). -/
def lastest_sync_timestamp (entries : List DirEntry) (image : String) : Nat :=
  (entries.filterMap (entryTimestamp image)).foldl
    (fun prev curr => if prev < curr then curr else prev) 0

/-- The per-page body of the loop in `tags_after_timestamp` (main.rs lines
154-158): push the name of every tag whose `last_updated` is strictly greater
than `latest_sync`.  Note the Rust code consults only the timestamp — the tag
name is never inspected. -/
def pageQualifying (latest_sync : Nat) (p : TagPage) : List String :=
  p.results.filterMap (fun tag =>
    if latest_sync < tag.last_updated then some tag.name else none)

/-- The fetch loop of `tags_after_timestamp` (main.rs lines 149-164) over the
chain of pages the registry would serve for the successive URLs.  Running off
the end of the chain models a failed GET / deserialization (`reqwest` or
`serde_json` error propagated by `?`).  Returns the accumulated names
together with the number of fetches issued (the failing fetch included). -/
def tagsLoop (latest_sync : Nat) : List TagPage → Except String (List String) × Nat
  | [] => (Except.error "transport error", 1)
  | p :: rest =>
    match p.next with
    | none => (Except.ok (pageQualifying latest_sync p), 1)
    | some _ =>
      match tagsLoop latest_sync rest with
      | (Except.ok tags, n) => (Except.ok (pageQualifying latest_sync p ++ tags), n + 1)
      | (Except.error e, n) => (Except.error e, n + 1)

/-- `tags_after_timestamp` (main.rs lines 138-167). -/
def tags_after_timestamp (pages : List TagPage) (latest_sync : Nat) :
    Except String (List String) × Nat :=
  tagsLoop latest_sync pages

/-- `struct Options` (main.rs lines 11-17). -/
structure Options where
  dry_run : Bool
  first_sync : Nat
  force : Bool
  parallelize : Bool
deriving Repr, DecidableEq

/-- The compile-time environment read by `option_env!` in `slurm_sync_command`
(main.rs lines 185-207). -/
structure BuildEnv where
  sbatchMem : Option String
  sbatchTime : Option String
  singularityCachedir : Option String
  singularityTmpdir : Option String
deriving Repr, DecidableEq

/-- An external process invocation performed by the dispatcher. -/
inductive ProcCall where
  | singularityBuild (force : Bool) (sifPath dockerUri : String)
  | sbatchSubmit (script : String)
deriving Repr, DecidableEq

/-- The observable side effects of a (partial) run: directories created, lines
printed to stdout, external processes invoked, registry GETs issued. -/
structure Effects where
  dirsCreated : List String
  stdoutLines : List String
  procs : List ProcCall
  registryFetches : Nat
deriving Repr, DecidableEq

/-- No side effects. -/
def Effects.empty : Effects := ⟨[], [], [], 0⟩

/-- Sequencing of side effects. -/
def Effects.append (a b : Effects) : Effects :=
  ⟨a.dirsCreated ++ b.dirsCreated, a.stdoutLines ++ b.stdoutLines,
   a.procs ++ b.procs, a.registryFetches + b.registryFetches⟩

/-- The result of running a piece of the program: normal return, a propagated
`Err`, or a Rust panic (out-of-bounds index/slice). -/
inductive Outcome (α : Type) where
  | ok : α → Outcome α
  | err : String → Outcome α
  | panicked : Outcome α
deriving Repr, DecidableEq

/-- The character-level splitter behind Rust `str::split('/')`:
`splitCharAux c l acc` walks `l`, cutting at every occurrence of `c`
(`acc` holds the current segment, reversed). -/
def splitCharAux (c : Char) : List Char → List Char → List (List Char)
  | [], acc => [acc.reverse]
  | x :: xs, acc =>
    if x == c then acc.reverse :: splitCharAux c xs []
    else splitCharAux c xs (x :: acc)

/-- Rust `str::split('/')` as a list of strings. -/
def splitSlash (s : String) : List String :=
  (splitCharAux '/' s.data []).map (fun l => String.mk l)

/-- Rust `str::rsplit('/').collect()` (main.rs line 273): the `/`-separated
segments from right to left. -/
def rsplitSlash (s : String) : List String :=
  (splitSlash s).reverse

/-- `sif_path` construction (main.rs lines 176 and 249):
`{directory}/{repository}/{image}-{tag}.sif`. -/
def sifPathOf (directory repository image tag : String) : String :=
  directory ++ "/" ++ repository ++ "/" ++ image ++ "-" ++ tag ++ ".sif"

/-- `docker_uri` construction (main.rs lines 177 and 250):
`docker://{repository}/{image}:{tag}`. -/
def dockerUriOf (repository image tag : String) : String :=
  "docker://" ++ repository ++ "/" ++ image ++ ":" ++ tag

/-- The sbatch submission script rendered by `slurm_sync_command` (main.rs
lines 176-219). -/
def slurmScript (benv : BuildEnv) (directory repository image tag : String)
    (options : Options) : String :=
  let sif_path := sifPathOf directory repository image tag
  let docker_uri := dockerUriOf repository image tag
  let job_name := "SingularitySync-" ++ repository ++ "-" ++ image
  let output := "/gpfs/scratch/%u/SingularitySync-" ++ repository ++ "-" ++ image ++ "-%j.out"
  let force := if options.force then "-F" else ""
  let memory := benv.sbatchMem.getD "8G"
  let time := benv.sbatchTime.getD "8:00:00"
  let cachedir := benv.singularityCachedir.getD "$\x7bHOME\x7d/scratch/singularity"
  let tmpdir := benv.singularityTmpdir.getD "$\x7bHOME\x7d/scratch/tmp"
  "#!/usr/bin/env bash\n" ++
  "#SBATCH --time=" ++ time ++ "\n" ++
  "#SBATCH --mem=" ++ memory ++ "\n" ++
  "#SBATCH -J " ++ job_name ++ "\n" ++
  "#SBATCH -o " ++ output ++ "\n" ++
  "export SINGULARITY_CACHEDIR=" ++ cachedir ++ "\n" ++
  "export SINGULARITY_TMPDIR=" ++ tmpdir ++ "\n" ++
  "singularity build " ++ force ++ " " ++ sif_path ++ " " ++ docker_uri

/-- `slurm_sync_command` (main.rs lines 169-235).  `procResult` is the outcome
of the one external invocation this call may make: `Except.error` for a failed
`sbatch` spawn / stdin write, `Except.ok` for a successful submission (the
scheduler is fire-and-forget, so no exit code is consulted). -/
def slurm_sync_command (benv : BuildEnv) (procResult : Except String Int)
    (directory repository image tag : String) (options : Options) :
    Outcome Unit × Effects :=
  let script := slurmScript benv directory repository image tag options
  if options.dry_run then
    (Outcome.ok (), ⟨[], ["sbatch <<EOF", script, "EOF"], [], 0⟩)
  else
    match procResult with
    | Except.error e => (Outcome.err e, Effects.empty)
    | Except.ok _ => (Outcome.ok (), ⟨[], [], [ProcCall.sbatchSubmit script], 0⟩)

/-- `run_sync_command` (main.rs lines 237-270).  In the direct path,
`procResult` is the result of `Command::status()`: `Except.error` when the
spawn/wait itself fails (the `?` on line 267), `Except.ok code` when the
process ran to completion with exit code `code`.  Note the Rust code drops
the `ExitStatus` value, so `code` is never consulted. -/
def run_sync_command (benv : BuildEnv) (procResult : Except String Int)
    (directory repository image tag : String) (options : Options) :
    Outcome Unit × Effects :=
  if options.parallelize then
    slurm_sync_command benv procResult directory repository image tag options
  else
    let sif_path := sifPathOf directory repository image tag
    let docker_uri := dockerUriOf repository image tag
    if options.dry_run then
      let force := if options.force then "-F" else ""
      (Outcome.ok (),
       ⟨[], ["singularity build " ++ force ++ " " ++ sif_path ++ " " ++ docker_uri], [], 0⟩)
    else
      match procResult with
      | Except.error e => (Outcome.err e, Effects.empty)
      | Except.ok _ =>
        (Outcome.ok (),
         ⟨[], [], [ProcCall.singularityBuild options.force sif_path docker_uri], 0⟩)

/-- The external world one image sync runs against: whether the image
directory exists, whether creating it would succeed, its entries, the chain
of registry pages, and the result of the n-th external process invocation. -/
structure Env where
  dirIsDir : Bool
  createDirOk : Bool
  dirEntries : List DirEntry
  pages : List TagPage
  procResults : Nat → Except String Int

/-- The per-tag dispatch loop of `sync_docker_image` (main.rs lines 296-298):
run `run_sync_command` on each selected tag in order, stopping at the first
error (`?`). -/
def syncTagsLoop (benv : BuildEnv) (procResults : Nat → Except String Int)
    (directory repository image : String) (options : Options) :
    Nat → List String → Outcome Unit × Effects
  | _, [] => (Outcome.ok (), Effects.empty)
  | idx, tag :: rest =>
    let step := run_sync_command benv (procResults idx) directory repository image tag options
    match step.1 with
    | Outcome.ok _ =>
      let next := syncTagsLoop benv procResults directory repository image options (idx + 1) rest
      (next.1, step.2.append next.2)
    | other => (other, step.2)

/-- The tail of `sync_docker_image` after the directory precondition (main.rs
lines 286-300): derive the high-water mark from `entries`, fetch the tags,
apply the bootstrap slice `&tags_to_sync[0..first_sync]` when the mark equals
the epoch sentinel (a slice that panics when `first_sync` exceeds the list
length), and dispatch each selected tag.  `eff0` carries the effects of the
directory step. -/
def syncAfterDir (benv : BuildEnv) (entries : List DirEntry) (pages : List TagPage)
    (procResults : Nat → Except String Int) (directory repository image : String)
    (options : Options) (eff0 : Effects) : Outcome Unit × Effects :=
  let latest_sync := lastest_sync_timestamp entries image
  match tags_after_timestamp pages latest_sync with
  | (Except.error e, n) => (Outcome.err e, eff0.append ⟨[], [], [], n⟩)
  | (Except.ok tags_to_sync, n) =>
    let eff1 := eff0.append ⟨[], [], [], n⟩
    if latest_sync == 0 then
      if options.first_sync ≤ tags_to_sync.length then
        let step := syncTagsLoop benv procResults directory repository image options 0
          (tags_to_sync.take options.first_sync)
        (step.1, eff1.append step.2)
      else
        (Outcome.panicked, eff1)
    else
      let step := syncTagsLoop benv procResults directory repository image options 0 tags_to_sync
      (step.1, eff1.append step.2)

/-- `sync_docker_image` (main.rs lines 272-301).  `image_split[0]` and
`image_split[1]` (lines 274-275) panic when `rsplit('/')` yields fewer than
two segments; `image_dir` is `Path::new(directory).join(repository)`; a
missing directory is created under `force` (a freshly created directory has
no entries) and is otherwise an error. -/
def sync_docker_image (benv : BuildEnv) (env : Env) (directory imageRef : String)
    (options : Options) : Outcome Unit × Effects :=
  match rsplitSlash imageRef with
  | image :: repository :: _ =>
    let image_dir := directory ++ "/" ++ repository
    if env.dirIsDir then
      syncAfterDir benv env.dirEntries env.pages env.procResults
        directory repository image options Effects.empty
    else if options.force then
      if env.createDirOk then
        syncAfterDir benv [] env.pages env.procResults
          directory repository image options ⟨[image_dir], [], [], 0⟩
      else (Outcome.err "Could not create directory", Effects.empty)
    else (Outcome.err ("Image directory not found: " ++ image_dir), Effects.empty)
  | _ => (Outcome.panicked, Effects.empty)

/-- `sync_manifest` (main.rs lines 303-308): sync every manifest entry in
order, propagating the first error (`?`) and aborting the remainder; `world`
gives each image reference its external environment. -/
def sync_manifest (benv : BuildEnv) (world : String → Env) (directory : String)
    (options : Options) : List String → Outcome Unit × Effects
  | [] => (Outcome.ok (), Effects.empty)
  | img :: rest =>
    let step := sync_docker_image benv (world img) directory img options
    match step.1 with
    | Outcome.ok _ =>
      let next := sync_manifest benv world directory options rest
      (next.1, step.2.append next.2)
    | other => (other, step.2)

/-- `DockerImage::from` (docker.rs lines 21-29): forward `split("/")`, then
`parts[0]` as repository and `parts[1]` as image; `parts[1]` panics when the
input has no separator.  `none` models that panic. -/
def DockerImage.mkFrom (s : String) : Option (String × String) :=
  match splitSlash s with
  | repository :: image :: _ => some (repository, image)
  | _ => none

/-- Characterization of the filter chain of `lastest_sync_timestamp` as one
boolean predicate: the entry is readable, is a regular file, has extension
`sif`, has a representable name containing the image name, and can be
stat'd with a modification time. -/
def passesChain (image : String) (e : DirEntry) : Bool :=
  !e.readErr && e.isFile && e.extension == some "sif" && e.nameOk &&
    containsSub e.fileName image && !e.statErr && !e.modifiedErr

/-- A registry page chain is well linked when every page except the last
carries a `next` locator and the last does not. -/
def wellLinked : List TagPage → Bool
  | [] => false
  | [p] => p.next.isNone
  | p :: q :: rest => p.next.isSome && wellLinked (q :: rest)

/-! ### Helper lemmas -/

theorem Effects.append_dirs (a b : Effects) :
    (a.append b).dirsCreated = a.dirsCreated ++ b.dirsCreated := rfl

theorem Effects.append_stdout (a b : Effects) :
    (a.append b).stdoutLines = a.stdoutLines ++ b.stdoutLines := rfl

theorem Effects.append_procs (a b : Effects) :
    (a.append b).procs = a.procs ++ b.procs := rfl

theorem Effects.append_fetch (a b : Effects) :
    (a.append b).registryFetches = a.registryFetches + b.registryFetches := rfl

theorem Effects.empty_append (b : Effects) : Effects.empty.append b = b := by
  rcases b with ⟨d, s, p, n⟩
  simp [Effects.append, Effects.empty]

theorem Effects.append_assoc (a b c : Effects) :
    (a.append b).append c = a.append (b.append c) := by
  simp [Effects.append, Nat.add_assoc]

theorem splitCharAux_no_sep (c : Char) :
    ∀ (xs acc : List Char), c ∉ xs → splitCharAux c xs acc = [acc.reverse ++ xs]
  | [], acc, _ => by simp [splitCharAux]
  | x :: xs, acc, h => by
    have hx : (x == c) = false :=
      beq_eq_false_iff_ne.mpr fun hxc => h (by simp [hxc])
    have hrest : c ∉ xs := fun hm => h (List.mem_cons_of_mem _ hm)
    simp [splitCharAux, hx, splitCharAux_no_sep c xs (x :: acc) hrest]

theorem splitCharAux_sep (c : Char) :
    ∀ (xs ys acc : List Char), c ∉ xs →
      splitCharAux c (xs ++ c :: ys) acc = (acc.reverse ++ xs) :: splitCharAux c ys []
  | [], ys, acc, _ => by simp [splitCharAux]
  | x :: xs, ys, acc, h => by
    have hx : (x == c) = false :=
      beq_eq_false_iff_ne.mpr fun hxc => h (by simp [hxc])
    have hrest : c ∉ xs := fun hm => h (List.mem_cons_of_mem _ hm)
    have hstep : splitCharAux c ((x :: xs) ++ c :: ys) acc
        = splitCharAux c (xs ++ c :: ys) (x :: acc) := by
      simp [splitCharAux, hx]
    rw [hstep, splitCharAux_sep c xs ys (x :: acc) hrest]
    simp

theorem slash_data (a b : String) : (a ++ "/" ++ b).data = a.data ++ '/' :: b.data := by
  simp [String.data_append]

theorem splitSlash_no_sep (s : String) (h : '/' ∉ s.data) : splitSlash s = [s] := by
  simp [splitSlash, splitCharAux_no_sep '/' s.data [] h]

theorem splitSlash_two (a b : String) (ha : '/' ∉ a.data) (hb : '/' ∉ b.data) :
    splitSlash (a ++ "/" ++ b) = [a, b] := by
  unfold splitSlash
  rw [slash_data, splitCharAux_sep '/' a.data b.data [] ha,
    splitCharAux_no_sep '/' b.data [] hb]
  simp

theorem splitSlash_three (a b c : String)
    (ha : '/' ∉ a.data) (hb : '/' ∉ b.data) (hc : '/' ∉ c.data) :
    splitSlash (a ++ "/" ++ b ++ "/" ++ c) = [a, b, c] := by
  unfold splitSlash
  have hdata : (a ++ "/" ++ b ++ "/" ++ c).data = a.data ++ '/' :: (b.data ++ '/' :: c.data) := by
    simp [String.data_append]
  rw [hdata, splitCharAux_sep '/' a.data (b.data ++ '/' :: c.data) [] ha,
    splitCharAux_sep '/' b.data c.data [] hb,
    splitCharAux_no_sep '/' c.data [] hc]
  simp

theorem rsplitSlash_no_sep (s : String) (h : '/' ∉ s.data) : rsplitSlash s = [s] := by
  simp [rsplitSlash, splitSlash_no_sep s h]

theorem rsplitSlash_two (a b : String) (ha : '/' ∉ a.data) (hb : '/' ∉ b.data) :
    rsplitSlash (a ++ "/" ++ b) = [b, a] := by
  simp [rsplitSlash, splitSlash_two a b ha hb]

theorem rsplitSlash_three (a b c : String)
    (ha : '/' ∉ a.data) (hb : '/' ∉ b.data) (hc : '/' ∉ c.data) :
    rsplitSlash (a ++ "/" ++ b ++ "/" ++ c) = [c, b, a] := by
  simp [rsplitSlash, splitSlash_three a b c ha hb hc]

theorem filterMap_if_bool {α β : Type} (p : α → Bool) (g : α → β) :
    ∀ l : List α, (l.filterMap fun a => if p a then some (g a) else none) = (l.filter p).map g
  | [] => rfl
  | x :: xs => by
    by_cases h : p x = true <;>
      simp [h, List.filter_cons, filterMap_if_bool p g xs]

theorem filterMap_if_prop {α β : Type} (p : α → Prop) [DecidablePred p] (g : α → β) :
    ∀ l : List α, (l.filterMap fun a => if p a then some (g a) else none)
      = (l.filter fun a => decide (p a)).map g
  | [] => rfl
  | x :: xs => by
    by_cases h : p x <;>
      simp [h, List.filter_cons, filterMap_if_prop p g xs]

theorem fold_step_max (a b : Nat) : (if a < b then b else a) = max a b := by
  rcases Nat.lt_or_ge a b with h | h
  · simp [h, Nat.max_eq_right h.le]
  · simp [Nat.not_lt.mpr h, Nat.max_eq_left h]

theorem entryTimestamp_eq_chain (image : String) (e : DirEntry) :
    entryTimestamp image e = if passesChain image e then some e.modified else none := by
  rcases e with ⟨re, isf, ext, nok, fn, se, me, mo⟩
  rcases ext with _ | ext
  · cases re <;> cases isf <;> cases nok <;> cases se <;> cases me <;>
      simp [entryTimestamp, passesChain]
  · by_cases hx : ext = "sif" <;>
      cases hc : containsSub fn image <;>
        cases re <;> cases isf <;> cases nok <;> cases se <;> cases me <;>
          simp [entryTimestamp, passesChain, hx, hc]

theorem lastest_sync_filter (entries : List DirEntry) (image : String) :
    lastest_sync_timestamp entries image
      = ((entries.filter (passesChain image)).map DirEntry.modified).foldl max 0 := by
  unfold lastest_sync_timestamp
  have hfun : entryTimestamp image
      = fun e => if passesChain image e then some e.modified else none :=
    funext (entryTimestamp_eq_chain image)
  have hmax : (fun prev curr : Nat => if prev < curr then curr else prev) = max :=
    funext fun a => funext fun b => fold_step_max a b
  rw [hfun, hmax, filterMap_if_bool (passesChain image) DirEntry.modified entries]

theorem tagsLoop_pos (latest : Nat) : ∀ pages, 1 ≤ (tagsLoop latest pages).2
  | [] => by simp [tagsLoop]
  | p :: rest => by
    unfold tagsLoop
    rcases hn : p.next with _ | u
    · simp
    · rcases h : tagsLoop latest rest with ⟨r, n⟩
      rcases r with e | tags <;> simp

theorem tagsLoop_wellLinked (latest : Nat) :
    ∀ pages, wellLinked pages = true →
      tagsLoop latest pages
        = (Except.ok ((pages.map (pageQualifying latest)).flatten), pages.length)
  | [], h => by simp [wellLinked] at h
  | [p], h => by
    have hn : p.next = none := Option.isNone_iff_eq_none.mp (by simpa [wellLinked] using h)
    simp [tagsLoop, hn]
  | p :: q :: rest, h => by
    have hw : wellLinked (q :: rest) = true := by
      have := h
      simp [wellLinked, Bool.and_eq_true] at this
      exact this.2
    have hs : p.next.isSome = true := by
      have := h
      simp [wellLinked, Bool.and_eq_true] at this
      exact this.1
    obtain ⟨u, hu⟩ := Option.isSome_iff_exists.mp hs
    have ih := tagsLoop_wellLinked latest (q :: rest) hw
    have hstep : tagsLoop latest (p :: q :: rest)
        = match tagsLoop latest (q :: rest) with
          | (Except.ok tags, n) => (Except.ok (pageQualifying latest p ++ tags), n + 1)
          | (Except.error e, n) => (Except.error e, n + 1) := by
      conv_lhs => rw [tagsLoop.eq_def]
      simp [hu]
    rw [hstep, ih]
    simp

theorem run_sync_no_fs (benv : BuildEnv) (pr : Except String Int)
    (directory repository image tag : String) (options : Options) :
    (run_sync_command benv pr directory repository image tag options).2.dirsCreated = []
    ∧ (run_sync_command benv pr directory repository image tag options).2.registryFetches = 0 := by
  rcases options with ⟨dr, fs, fo, par⟩
  cases par <;> cases dr <;> rcases pr with e | code <;>
    simp [run_sync_command, slurm_sync_command, Effects.empty]

theorem run_sync_dry_procs (benv : BuildEnv) (pr : Except String Int)
    (directory repository image tag : String) (options : Options)
    (hdry : options.dry_run = true) :
    (run_sync_command benv pr directory repository image tag options).2.procs = [] := by
  rcases options with ⟨dr, fs, fo, par⟩
  cases dr
  · simp at hdry
  · cases par <;> rcases pr with e | code <;>
      simp [run_sync_command, slurm_sync_command, Effects.empty]

theorem syncTagsLoop_no_fs (benv : BuildEnv) (procResults : Nat → Except String Int)
    (directory repository image : String) (options : Options) :
    ∀ (idx : Nat) (tags : List String),
      (syncTagsLoop benv procResults directory repository image options idx tags).2.dirsCreated = []
      ∧ (syncTagsLoop benv procResults directory repository image options idx tags).2.registryFetches = 0
  | _, [] => by simp [syncTagsLoop, Effects.empty]
  | idx, tag :: rest => by
    have hrun := run_sync_no_fs benv (procResults idx) directory repository image tag options
    have ih := syncTagsLoop_no_fs benv procResults directory repository image options (idx + 1) rest
    unfold syncTagsLoop
    rcases hr : (run_sync_command benv (procResults idx) directory repository image tag options).1
      with u | e | _ <;>
      simp [hr, Effects.append_dirs, Effects.append_fetch, hrun.1, hrun.2, ih.1, ih.2]

theorem syncTagsLoop_dry_procs (benv : BuildEnv) (procResults : Nat → Except String Int)
    (directory repository image : String) (options : Options)
    (hdry : options.dry_run = true) :
    ∀ (idx : Nat) (tags : List String),
      (syncTagsLoop benv procResults directory repository image options idx tags).2.procs = []
  | _, [] => by simp [syncTagsLoop, Effects.empty]
  | idx, tag :: rest => by
    have hrun := run_sync_dry_procs benv (procResults idx) directory repository image tag options hdry
    have ih := syncTagsLoop_dry_procs benv procResults directory repository image options hdry
      (idx + 1) rest
    unfold syncTagsLoop
    rcases hr : (run_sync_command benv (procResults idx) directory repository image tag options).1
      with u | e | _ <;>
      simp [hr, Effects.append_procs, hrun, ih]

theorem run_sync_all_ok (benv : BuildEnv) (pr : Except String Int)
    (directory repository image tag : String) (options : Options)
    (hpar : options.parallelize = false) (hdry : options.dry_run = false)
    (code : Int) (hc : pr = Except.ok code) :
    run_sync_command benv pr directory repository image tag options
      = (Outcome.ok (), ⟨[], [], [ProcCall.singularityBuild options.force
          (sifPathOf directory repository image tag) (dockerUriOf repository image tag)], 0⟩) := by
  simp [run_sync_command, hpar, hdry, hc]

theorem syncTagsLoop_all_ok (benv : BuildEnv) (procResults : Nat → Except String Int)
    (directory repository image : String) (options : Options)
    (hpar : options.parallelize = false) (hdry : options.dry_run = false)
    (hok : ∀ n, ∃ code, procResults n = Except.ok code) :
    ∀ (idx : Nat) (tags : List String),
      syncTagsLoop benv procResults directory repository image options idx tags
        = (Outcome.ok (), ⟨[], [], tags.map (fun tag => ProcCall.singularityBuild options.force
            (sifPathOf directory repository image tag) (dockerUriOf repository image tag)), 0⟩)
  | _, [] => by simp [syncTagsLoop, Effects.empty]
  | idx, tag :: rest => by
    obtain ⟨code, hc⟩ := hok idx
    have hstep := run_sync_all_ok benv (procResults idx) directory repository image tag options
      hpar hdry code hc
    have ih := syncTagsLoop_all_ok benv procResults directory repository image options
      hpar hdry hok (idx + 1) rest
    unfold syncTagsLoop
    rw [hstep]
    simp [ih, Effects.append]

theorem syncAfterDir_dirs (benv : BuildEnv) (entries : List DirEntry) (pages : List TagPage)
    (procResults : Nat → Except String Int) (directory repository image : String)
    (options : Options) (eff0 : Effects) :
    (syncAfterDir benv entries pages procResults directory repository image options eff0).2.dirsCreated
      = eff0.dirsCreated := by
  unfold syncAfterDir
  dsimp only
  rcases h : tags_after_timestamp pages (lastest_sync_timestamp entries image) with ⟨r, n⟩
  rcases r with e | tags
  · simp [Effects.append_dirs]
  · by_cases hm : (lastest_sync_timestamp entries image == 0) = true <;>
      by_cases hlen : options.first_sync ≤ tags.length <;>
        simp [hm, hlen, Effects.append_dirs,
          (syncTagsLoop_no_fs benv procResults directory repository image options 0 _).1]

theorem syncAfterDir_fetch (benv : BuildEnv) (entries : List DirEntry) (pages : List TagPage)
    (procResults : Nat → Except String Int) (directory repository image : String)
    (options : Options) (eff0 : Effects) :
    eff0.registryFetches + 1
      ≤ (syncAfterDir benv entries pages procResults directory repository image options eff0).2.registryFetches := by
  unfold syncAfterDir
  dsimp only
  have hpos := tagsLoop_pos (lastest_sync_timestamp entries image) pages
  rcases h : tags_after_timestamp pages (lastest_sync_timestamp entries image) with ⟨r, n⟩
  have hn : 1 ≤ n := by
    have heq : tags_after_timestamp pages (lastest_sync_timestamp entries image)
        = tagsLoop (lastest_sync_timestamp entries image) pages := rfl
    rw [heq] at h
    rw [h] at hpos
    exact hpos
  rcases r with e | tags
  · simp [Effects.append_fetch]
    omega
  · by_cases hm : (lastest_sync_timestamp entries image == 0) = true <;>
      by_cases hlen : options.first_sync ≤ tags.length <;>
        simp [hm, hlen, Effects.append_fetch,
          (syncTagsLoop_no_fs benv procResults directory repository image options 0 _).2] <;>
        omega

theorem syncAfterDir_dry_procs (benv : BuildEnv) (entries : List DirEntry) (pages : List TagPage)
    (procResults : Nat → Except String Int) (directory repository image : String)
    (options : Options) (eff0 : Effects) (hdry : options.dry_run = true) :
    (syncAfterDir benv entries pages procResults directory repository image options eff0).2.procs
      = eff0.procs := by
  unfold syncAfterDir
  dsimp only
  rcases h : tags_after_timestamp pages (lastest_sync_timestamp entries image) with ⟨r, n⟩
  rcases r with e | tags
  · simp [Effects.append_procs]
  · by_cases hm : (lastest_sync_timestamp entries image == 0) = true <;>
      by_cases hlen : options.first_sync ≤ tags.length <;>
        simp [hm, hlen, Effects.append_procs,
          syncTagsLoop_dry_procs benv procResults directory repository image options hdry 0 _]

theorem sync_docker_image_two (benv : BuildEnv) (env : Env)
    (directory repository image : String) (options : Options)
    (hr : '/' ∉ repository.data) (hi : '/' ∉ image.data) :
    sync_docker_image benv env directory (repository ++ "/" ++ image) options
      = if env.dirIsDir then
          syncAfterDir benv env.dirEntries env.pages env.procResults
            directory repository image options Effects.empty
        else if options.force then
          if env.createDirOk then
            syncAfterDir benv [] env.pages env.procResults
              directory repository image options ⟨[directory ++ "/" ++ repository], [], [], 0⟩
          else (Outcome.err "Could not create directory", Effects.empty)
        else (Outcome.err ("Image directory not found: " ++ (directory ++ "/" ++ repository)),
          Effects.empty) := by
  unfold sync_docker_image
  rw [rsplitSlash_two repository image hr hi]

theorem sync_image_dry_procs (benv : BuildEnv) (env : Env) (directory imageRef : String)
    (options : Options) (hdry : options.dry_run = true) :
    (sync_docker_image benv env directory imageRef options).2.procs = [] := by
  unfold sync_docker_image
  rcases hsplit : rsplitSlash imageRef with _ | ⟨im, rest1⟩
  · simp [Effects.empty]
  · rcases rest1 with _ | ⟨rep, rest⟩
    · simp [Effects.empty]
    · by_cases hd : env.dirIsDir <;> by_cases hf : options.force <;>
        by_cases hc : env.createDirOk <;>
          simp [hd, hf, hc, Effects.empty,
            syncAfterDir_dry_procs benv _ env.pages env.procResults directory rep im options _ hdry]

theorem sync_image_present_dirs (benv : BuildEnv) (env : Env) (directory imageRef : String)
    (options : Options) (hd : env.dirIsDir = true) :
    (sync_docker_image benv env directory imageRef options).2.dirsCreated = [] := by
  unfold sync_docker_image
  rcases hsplit : rsplitSlash imageRef with _ | ⟨im, rest1⟩
  · simp [Effects.empty]
  · rcases rest1 with _ | ⟨rep, rest⟩
    · simp [Effects.empty]
    · simp [hd, syncAfterDir_dirs, Effects.empty]

/-! ### Claim theorems -/

/-- **C1** (code bug): the claim says that on a cold target whose filtered
candidate list has fewer entries than the `first_sync` cap, bootstrap
truncation is a no-op and the sync does not fail.  The code instead slices
`&tags_to_sync[0..options.first_sync]`, which panics when the list is
shorter than the cap.  Concretely: an existing empty image directory
(high-water mark = epoch), `first_sync = 5`, a registry serving one page with
a single qualifying tag — `sync_docker_image` panics after the fetch instead
of selecting that tag. -/
theorem bootstrap_short_list_panics :
    sync_docker_image ⟨none, none, none, none⟩
        ⟨true, true, [], [⟨[⟨"1.0", 10⟩], none⟩], fun _ => Except.ok 0⟩
        "/d" "lib/img" ⟨false, 5, false, false⟩
      = (Outcome.panicked, ⟨[], [], [], 1⟩) := rfl

/-- **C2** counterexample: the tag named `1.2.3-rc1` contains the banned
substring `rc`, yet with `last_updated = 10`, strictly newer than the
high-water mark `5`, it IS selected by `tags_after_timestamp` — the claimed
banned-substring filter does not exist in the code. -/
theorem rc_named_tag_is_selected :
    (tags_after_timestamp [⟨[⟨"1.2.3-rc1", 10⟩], none⟩] 5).1 = Except.ok ["1.2.3-rc1"]
    ∧ containsSub "1.2.3-rc1" "rc" = true := ⟨rfl, by decide⟩

/-- **C2** (amended): tag selection consults only the timestamp.  For a
terminal registry page, `tags_after_timestamp` returns exactly the names of
the tags whose `last_updated` is strictly greater than the high-water mark,
in response order; the tag name is never inspected, so any tag strictly newer
than the mark — banned-looking name or not — is always selected. -/
theorem selection_ignores_tag_name (latest : Nat) (p : TagPage) (hp : p.next = none) :
    (tags_after_timestamp [p] latest).1
      = Except.ok ((p.results.filter fun t => decide (latest < t.last_updated)).map Tag.name)
    ∧ ∀ t ∈ p.results, latest < t.last_updated →
        t.name ∈ ((p.results.filter fun t => decide (latest < t.last_updated)).map Tag.name) := by
  have hq : pageQualifying latest p
      = (p.results.filter fun t => decide (latest < t.last_updated)).map Tag.name := by
    unfold pageQualifying
    exact filterMap_if_prop (fun t => latest < t.last_updated) Tag.name p.results
  constructor
  · simp [tags_after_timestamp, tagsLoop, hp, hq]
  · intro t ht hlt
    have hmem : t ∈ p.results.filter fun t => decide (latest < t.last_updated) :=
      List.mem_filter.mpr ⟨ht, by simpa using hlt⟩
    exact List.mem_map.mpr ⟨t, hmem, rfl⟩

/-- Witness for `selection_ignores_tag_name`: a page holding a banned-named
tag (`latest`, newer than the mark), a clean newer tag and an old tag; both
newer tags are selected, the old one is not. -/
theorem selection_ignores_tag_name_witness :
    (tags_after_timestamp [⟨[⟨"latest", 9⟩, ⟨"1.2.3", 8⟩, ⟨"0.9", 3⟩], none⟩] 5).1
      = Except.ok ["latest", "1.2.3"]
    ∧ "1.2.3" ∈ ["latest", "1.2.3"] := by
  have h := selection_ignores_tag_name 5 ⟨[⟨"latest", 9⟩, ⟨"1.2.3", 8⟩, ⟨"0.9", 3⟩], none⟩ rfl
  exact ⟨h.1, h.2 ⟨"1.2.3", 8⟩ (by simp) (by decide)⟩

/-- **C3** counterexample: a dry run with `force` set and the target
directory absent creates the directory — a filesystem write — even though the
run is otherwise pure (it completes, prints the rendered command, invokes no
process).  This contradicts "no directory is created". -/
theorem dry_run_creates_missing_directory :
    (sync_docker_image ⟨none, none, none, none⟩
        ⟨false, true, [], [⟨[⟨"1.0", 10⟩], none⟩], fun _ => Except.ok 0⟩
        "/d" "lib/img" ⟨true, 1, true, false⟩).2.dirsCreated = ["/d/lib"]
    ∧ (sync_docker_image ⟨none, none, none, none⟩
        ⟨false, true, [], [⟨[⟨"1.0", 10⟩], none⟩], fun _ => Except.ok 0⟩
        "/d" "lib/img" ⟨true, 1, true, false⟩).1 = Outcome.ok () := ⟨rfl, rfl⟩

/-- **C3** (amended): with dry-run enabled the sync renders the command
(direct mode) or the submission payload (scheduler mode) to stdout and
performs no process invocation; no artifact appears and no scheduler
submission occurs.  The only filesystem write that can still happen is the
creation of a missing target directory under `force`, which precedes dispatch
and ignores dry-run; when the target directory already exists, no filesystem
write occurs at all. -/
theorem dry_run_renders_without_dispatch (benv : BuildEnv) (env : Env)
    (pr : Except String Int) (directory imageRef repository image tag : String)
    (options : Options) (hdry : options.dry_run = true) :
    (options.parallelize = false →
      run_sync_command benv pr directory repository image tag options
        = (Outcome.ok (), ⟨[], ["singularity build " ++ (if options.force then "-F" else "")
            ++ " " ++ sifPathOf directory repository image tag ++ " "
            ++ dockerUriOf repository image tag], [], 0⟩))
    ∧ (options.parallelize = true →
      run_sync_command benv pr directory repository image tag options
        = (Outcome.ok (), ⟨[], ["sbatch <<EOF",
            slurmScript benv directory repository image tag options, "EOF"], [], 0⟩))
    ∧ (sync_docker_image benv env directory imageRef options).2.procs = []
    ∧ (env.dirIsDir = true →
      (sync_docker_image benv env directory imageRef options).2.dirsCreated = []) := by
  refine ⟨fun hp => ?_, fun hp => ?_, sync_image_dry_procs benv env directory imageRef options hdry,
    fun hd => sync_image_present_dirs benv env directory imageRef options hd⟩
  · simp [run_sync_command, hp, hdry]
  · simp [run_sync_command, slurm_sync_command, hp, hdry]

/-- Witness for `dry_run_renders_without_dispatch` at a concrete dry run. -/
theorem dry_run_renders_without_dispatch_witness :
    run_sync_command ⟨none, none, none, none⟩ (Except.ok 0) "/d" "lib" "img" "1.0"
        ⟨true, 5, false, false⟩
      = (Outcome.ok (), ⟨[], ["singularity build " ++ (if false then "-F" else "")
          ++ " " ++ sifPathOf "/d" "lib" "img" "1.0" ++ " "
          ++ dockerUriOf "lib" "img" "1.0"], [], 0⟩)
    ∧ (sync_docker_image ⟨none, none, none, none⟩
        ⟨true, true, [], [⟨[], none⟩], fun _ => Except.ok 0⟩
        "/d" "lib/img" ⟨true, 5, false, false⟩).2.procs = [] := by
  have h := dry_run_renders_without_dispatch ⟨none, none, none, none⟩
    ⟨true, true, [], [⟨[], none⟩], fun _ => Except.ok 0⟩ (Except.ok 0)
    "/d" "lib/img" "lib" "img" "1.0" ⟨true, 5, false, false⟩ rfl
  exact ⟨h.1 rfl, h.2.2.1⟩

/-- **C4** counterexample: in direct mode (not dry-run), an external build
process that runs and exits with the non-zero code 1 is still reported as
success — `Command::status()?` only propagates spawn errors and the
`ExitStatus` value is dropped. -/
theorem nonzero_exit_reported_ok :
    (run_sync_command ⟨none, none, none, none⟩ (Except.ok 1) "/d" "lib" "img" "1.0"
        ⟨false, 5, false, false⟩).1 = Outcome.ok () := rfl

/-- **C4** (amended): in direct dispatch mode (not dry-run) the dispatcher
waits for the external process's exit status; a failure to spawn/wait is reported
as an error for that single job, but the exit status value itself is
discarded: whatever the exit code, the job is reported as success. -/
theorem direct_exit_status_discarded (benv : BuildEnv) (pr : Except String Int)
    (directory repository image tag : String) (options : Options)
    (hpar : options.parallelize = false) (hdry : options.dry_run = false) :
    (∀ code : Int, pr = Except.ok code →
      run_sync_command benv pr directory repository image tag options
        = (Outcome.ok (), ⟨[], [], [ProcCall.singularityBuild options.force
            (sifPathOf directory repository image tag)
            (dockerUriOf repository image tag)], 0⟩))
    ∧ (∀ e : String, pr = Except.error e →
      run_sync_command benv pr directory repository image tag options
        = (Outcome.err e, Effects.empty)) := by
  constructor
  · intro code hc
    exact run_sync_all_ok benv pr directory repository image tag options hpar hdry code hc
  · intro e he
    simp [run_sync_command, hpar, hdry, he]

/-- Witness for `direct_exit_status_discarded` at exit code 7 and at a failed
spawn. -/
theorem direct_exit_status_discarded_witness :
    run_sync_command ⟨none, none, none, none⟩ (Except.ok 7) "/d" "lib" "img" "1.0"
        ⟨false, 5, false, false⟩
      = (Outcome.ok (), ⟨[], [], [ProcCall.singularityBuild false
          (sifPathOf "/d" "lib" "img" "1.0") (dockerUriOf "lib" "img" "1.0")], 0⟩)
    ∧ run_sync_command ⟨none, none, none, none⟩ (Except.error "spawn failed") "/d" "lib" "img" "1.0"
        ⟨false, 5, false, false⟩
      = (Outcome.err "spawn failed", Effects.empty) := by
  constructor
  · exact (direct_exit_status_discarded ⟨none, none, none, none⟩ (Except.ok 7)
      "/d" "lib" "img" "1.0" ⟨false, 5, false, false⟩ rfl rfl).1 7 rfl
  · exact (direct_exit_status_discarded ⟨none, none, none, none⟩ (Except.error "spawn failed")
      "/d" "lib" "img" "1.0" ⟨false, 5, false, false⟩ rfl rfl).2 "spawn failed" rfl

/-- **C5** counterexample: a manifest entry with no separator (`ubuntu`)
makes `sync_docker_image` panic (index out of bounds on `image_split[1]`)
rather than report a parse error; and for `a/b/c` the repository used is the
second-rightmost segment `b`, not the remainder `a/b` (visible in the
missing-directory error path). -/
theorem unseparated_ref_crashes :
    (sync_docker_image ⟨none, none, none, none⟩
        ⟨false, true, [], [], fun _ => Except.ok 0⟩
        "/d" "ubuntu" ⟨false, 5, false, false⟩).1 = Outcome.panicked
    ∧ (sync_docker_image ⟨none, none, none, none⟩
        ⟨false, true, [], [], fun _ => Except.ok 0⟩
        "/d" "a/b/c" ⟨false, 5, false, false⟩).1
      = Outcome.err "Image directory not found: /d/b" := ⟨rfl, rfl⟩

/-- **C5** (amended): `sync_docker_image` takes the rightmost `/`-separated
segment of the manifest entry as the image name and the second-rightmost
segment (not the whole remainder) as the repository; segments are not checked
for emptiness; an entry with no separator causes an out-of-bounds panic, not
a reported parse error.  `DockerImage::from` in the unused `docker` module
takes the first two forward segments and panics the same way without a
separator. -/
theorem image_ref_segment_semantics (benv : BuildEnv) (env : Env)
    (directory a b c : String) (options : Options)
    (ha : '/' ∉ a.data) (hb : '/' ∉ b.data) (hc : '/' ∉ c.data)
    (habs : env.dirIsDir = false) (hforce : options.force = false) :
    (sync_docker_image benv env directory a options).1 = Outcome.panicked
    ∧ sync_docker_image benv env directory (a ++ "/" ++ b) options
        = (Outcome.err ("Image directory not found: " ++ (directory ++ "/" ++ a)),
           Effects.empty)
    ∧ sync_docker_image benv env directory (a ++ "/" ++ b ++ "/" ++ c) options
        = (Outcome.err ("Image directory not found: " ++ (directory ++ "/" ++ b)),
           Effects.empty)
    ∧ DockerImage.mkFrom a = none
    ∧ DockerImage.mkFrom (a ++ "/" ++ b) = some (a, b)
    ∧ DockerImage.mkFrom (a ++ "/" ++ b ++ "/" ++ c) = some (a, b) := by
  refine ⟨?_, ?_, ?_, ?_, ?_, ?_⟩
  · unfold sync_docker_image
    rw [rsplitSlash_no_sep a ha]
  · have h := sync_docker_image_two benv env directory a b options ha hb
    rw [h, habs]
    simp [hforce]
  · unfold sync_docker_image
    rw [rsplitSlash_three a b c ha hb hc]
    rw [habs]
    simp [hforce]
  · unfold DockerImage.mkFrom
    rw [splitSlash_no_sep a ha]
  · unfold DockerImage.mkFrom
    rw [splitSlash_two a b ha hb]
  · unfold DockerImage.mkFrom
    rw [splitSlash_three a b c ha hb hc]

/-- Witness for `image_ref_segment_semantics` at concrete segments. -/
theorem image_ref_segment_semantics_witness :
    (sync_docker_image ⟨none, none, none, none⟩
        ⟨false, true, [], [], fun _ => Except.ok 0⟩
        "/d" "x" ⟨false, 5, false, false⟩).1 = Outcome.panicked
    ∧ sync_docker_image ⟨none, none, none, none⟩
        ⟨false, true, [], [], fun _ => Except.ok 0⟩
        "/d" ("x" ++ "/" ++ "y") ⟨false, 5, false, false⟩
        = (Outcome.err ("Image directory not found: " ++ ("/d" ++ "/" ++ "x")),
           Effects.empty)
    ∧ sync_docker_image ⟨none, none, none, none⟩
        ⟨false, true, [], [], fun _ => Except.ok 0⟩
        "/d" ("x" ++ "/" ++ "y" ++ "/" ++ "z") ⟨false, 5, false, false⟩
        = (Outcome.err ("Image directory not found: " ++ ("/d" ++ "/" ++ "y")),
           Effects.empty)
    ∧ DockerImage.mkFrom "x" = none
    ∧ DockerImage.mkFrom ("x" ++ "/" ++ "y") = some ("x", "y")
    ∧ DockerImage.mkFrom ("x" ++ "/" ++ "y" ++ "/" ++ "z") = some ("x", "y") :=
  image_ref_segment_semantics ⟨none, none, none, none⟩
    ⟨false, true, [], [], fun _ => Except.ok 0⟩
    "/d" "x" "y" "z" ⟨false, 5, false, false⟩
    (by decide) (by decide) (by decide) rfl rfl

/-- **C6**: on a cold target (high-water mark = epoch) with `first_sync = N`
and `M > N` qualifying tags, exactly `N` build jobs are dispatched, and they
are the first `N` qualifying tags in registry response order; when the mark
is any non-epoch timestamp, no truncation occurs and every qualifying tag is
dispatched. -/
theorem bootstrap_bound_and_warm_no_truncation (benv : BuildEnv) (env : Env)
    (directory repository image : String) (options : Options) (Q : List String)
    (hr : '/' ∉ repository.data) (hi : '/' ∉ image.data)
    (hdir : env.dirIsDir = true)
    (hpar : options.parallelize = false) (hdry : options.dry_run = false)
    (hok : ∀ n, ∃ code, env.procResults n = Except.ok code)
    (hq : (tags_after_timestamp env.pages (lastest_sync_timestamp env.dirEntries image)).1
        = Except.ok Q) :
    (lastest_sync_timestamp env.dirEntries image = 0 → options.first_sync < Q.length →
      (sync_docker_image benv env directory (repository ++ "/" ++ image) options).2.procs
        = (Q.take options.first_sync).map (fun tag => ProcCall.singularityBuild options.force
            (sifPathOf directory repository image tag) (dockerUriOf repository image tag))
      ∧ (sync_docker_image benv env directory (repository ++ "/" ++ image) options).2.procs.length
        = options.first_sync)
    ∧ (lastest_sync_timestamp env.dirEntries image ≠ 0 →
      (sync_docker_image benv env directory (repository ++ "/" ++ image) options).2.procs
        = Q.map (fun tag => ProcCall.singularityBuild options.force
            (sifPathOf directory repository image tag) (dockerUriOf repository image tag))) := by
  have hsync := sync_docker_image_two benv env directory repository image options hr hi
  rw [hdir] at hsync
  simp only [if_true] at hsync
  rcases hpair : tags_after_timestamp env.pages (lastest_sync_timestamp env.dirEntries image)
    with ⟨r, n⟩
  rw [hpair] at hq
  simp only at hq
  subst hq
  have hloop := syncTagsLoop_all_ok benv env.procResults directory repository image options
    hpar hdry hok 0
  constructor
  · intro hm hlt
    have hle : options.first_sync ≤ Q.length := hlt.le
    have hbeq : (lastest_sync_timestamp env.dirEntries image == 0) = true := by
      simp [hm]
    rw [hsync]
    unfold syncAfterDir
    dsimp only
    rw [hpair, hbeq]
    simp only [if_true, hle, ite_true, hloop (Q.take options.first_sync)]
    constructor
    · simp [Effects.append, Effects.empty]
    · simp [Effects.append, Effects.empty]
      omega
  · intro hm
    have hbeq : (lastest_sync_timestamp env.dirEntries image == 0) = false :=
      beq_eq_false_iff_ne.mpr hm
    rw [hsync]
    unfold syncAfterDir
    dsimp only
    rw [hpair, hbeq]
    simp only [Bool.false_eq_true, if_false, hloop Q]
    simp [Effects.append, Effects.empty]

/-- Witness for `bootstrap_bound_and_warm_no_truncation`: a cold directory,
`first_sync = 2`, three qualifying tags — exactly the first two are built. -/
theorem bootstrap_bound_witness :
    (sync_docker_image ⟨none, none, none, none⟩
        ⟨true, true, [], [⟨[⟨"3.0", 30⟩, ⟨"2.0", 20⟩, ⟨"1.0", 10⟩], none⟩], fun _ => Except.ok 0⟩
        "/d" ("lib" ++ "/" ++ "img") ⟨false, 2, false, false⟩).2.procs
      = (["3.0", "2.0", "1.0"].take 2).map (fun tag => ProcCall.singularityBuild false
          (sifPathOf "/d" "lib" "img" tag) (dockerUriOf "lib" "img" tag))
    ∧ (sync_docker_image ⟨none, none, none, none⟩
        ⟨true, true, [], [⟨[⟨"3.0", 30⟩, ⟨"2.0", 20⟩, ⟨"1.0", 10⟩], none⟩], fun _ => Except.ok 0⟩
        "/d" ("lib" ++ "/" ++ "img") ⟨false, 2, false, false⟩).2.procs.length = 2 :=
  (bootstrap_bound_and_warm_no_truncation ⟨none, none, none, none⟩
      ⟨true, true, [], [⟨[⟨"3.0", 30⟩, ⟨"2.0", 20⟩, ⟨"1.0", 10⟩], none⟩], fun _ => Except.ok 0⟩
      "/d" "lib" "img" ⟨false, 2, false, false⟩ ["3.0", "2.0", "1.0"]
      (by decide) (by decide) rfl rfl rfl (fun n => ⟨0, rfl⟩) rfl).1 rfl (by decide)

/-- **C7**: the high-water mark equals the fold-to-maximum (starting from the
epoch sentinel `0`) of the modification times of the directory entries that
survive the whole filter chain — regular file, `sif` extension, filename
containing the image name (plus the per-entry error skips); an entry whose
filename does not contain the image name never affects the mark; an empty or
all-skipped directory yields the epoch sentinel. -/
theorem high_water_mark_fold_max (entries : List DirEntry) (image : String)
    (e : DirEntry) (hmiss : containsSub e.fileName image = false) :
    lastest_sync_timestamp entries image
      = ((entries.filter (passesChain image)).map DirEntry.modified).foldl max 0
    ∧ lastest_sync_timestamp (e :: entries) image = lastest_sync_timestamp entries image
    ∧ lastest_sync_timestamp [] image = 0
    ∧ ((∀ x ∈ entries, passesChain image x = false) →
        lastest_sync_timestamp entries image = 0) := by
  have hpc : passesChain image e = false := by
    simp [passesChain, hmiss]
  refine ⟨lastest_sync_filter entries image, ?_, rfl, ?_⟩
  · rw [lastest_sync_filter (e :: entries) image, lastest_sync_filter entries image]
    simp [List.filter_cons, hpc]
  · intro hall
    rw [lastest_sync_filter entries image]
    have hnil : entries.filter (passesChain image) = [] := by
      simp only [List.filter_eq_nil_iff]
      intro x hx
      simp [hall x hx]
    rw [hnil]
    rfl

/-- Witness for `high_water_mark_fold_max`: `foo-1.0.sif` (mtime 3) and
`foo-2.0.sif` (mtime 7) give mark 7, and the non-matching `bar-9.9.sif`
does not change it. -/
theorem high_water_mark_fold_max_witness :
    lastest_sync_timestamp
        [⟨false, true, some "sif", true, "foo-1.0.sif", false, false, 3⟩,
         ⟨false, true, some "sif", true, "foo-2.0.sif", false, false, 7⟩] "foo"
      = (([⟨false, true, some "sif", true, "foo-1.0.sif", false, false, 3⟩,
           ⟨false, true, some "sif", true, "foo-2.0.sif", false, false, 7⟩].filter
            (passesChain "foo")).map DirEntry.modified).foldl max 0
    ∧ lastest_sync_timestamp
        [⟨false, true, some "sif", true, "bar-9.9.sif", false, false, 99⟩,
         ⟨false, true, some "sif", true, "foo-1.0.sif", false, false, 3⟩,
         ⟨false, true, some "sif", true, "foo-2.0.sif", false, false, 7⟩] "foo"
      = lastest_sync_timestamp
          [⟨false, true, some "sif", true, "foo-1.0.sif", false, false, 3⟩,
           ⟨false, true, some "sif", true, "foo-2.0.sif", false, false, 7⟩] "foo"
    ∧ lastest_sync_timestamp [] "foo" = 0 := by
  have h := high_water_mark_fold_max
    [⟨false, true, some "sif", true, "foo-1.0.sif", false, false, 3⟩,
     ⟨false, true, some "sif", true, "foo-2.0.sif", false, false, 7⟩] "foo"
    ⟨false, true, some "sif", true, "bar-9.9.sif", false, false, 99⟩ (by decide)
  exact ⟨h.1, h.2.1, h.2.2.1⟩

/-- **C8**: tag discovery follows the `next` locator of each page until it is
absent.  Over a well-linked chain the result is the concatenation of the
qualifying tags of every page in response order, with one fetch per page;
and the loop terminates exactly at a page whose `next` is null — pages after
it are never fetched. -/
theorem pagination_follows_next_until_absent (latest : Nat) (pages : List TagPage)
    (h : wellLinked pages = true) :
    tags_after_timestamp pages latest
      = (Except.ok ((pages.map (pageQualifying latest)).flatten), pages.length)
    ∧ (∀ (p : TagPage) (rest : List TagPage), p.next = none →
        tags_after_timestamp (p :: rest) latest = (Except.ok (pageQualifying latest p), 1)) := by
  constructor
  · exact tagsLoop_wellLinked latest pages h
  · intro p rest hpn
    simp [tags_after_timestamp, tagsLoop, hpn]

/-- Witness for `pagination_follows_next_until_absent`: three linked pages
contribute their qualifying tags in order; a terminal first page stops the
loop after one fetch. -/
theorem pagination_follows_next_until_absent_witness :
    tags_after_timestamp
        [⟨[⟨"a", 9⟩], some "u2"⟩, ⟨[⟨"b", 8⟩], some "u3"⟩, ⟨[⟨"c", 7⟩, ⟨"old", 1⟩], none⟩] 5
      = (Except.ok (([⟨[⟨"a", 9⟩], some "u2"⟩, ⟨[⟨"b", 8⟩], some "u3"⟩,
          ⟨[⟨"c", 7⟩, ⟨"old", 1⟩], none⟩].map (pageQualifying 5)).flatten), 3)
    ∧ tags_after_timestamp [(⟨[⟨"a", 9⟩], none⟩ : TagPage), ⟨[⟨"b", 8⟩], some "u3"⟩] 5
      = (Except.ok (pageQualifying 5 ⟨[⟨"a", 9⟩], none⟩), 1) := by
  have h := pagination_follows_next_until_absent 5
    [⟨[⟨"a", 9⟩], some "u2"⟩, ⟨[⟨"b", 8⟩], some "u3"⟩, ⟨[⟨"c", 7⟩, ⟨"old", 1⟩], none⟩] rfl
  exact ⟨h.1, h.2 ⟨[⟨"a", 9⟩], none⟩ [⟨[⟨"b", 8⟩], some "u3"⟩] rfl⟩

/-- **C9**: with `force = false` and an absent target directory, the image
sync fails with the missing-directory error and performs nothing at all — no
directory creation, no stdout, no process, no registry fetch; with
`force = true` (and the creation succeeding) the directory is created and
processing proceeds to tag discovery (at least one registry fetch). -/
theorem missing_directory_policy (benv : BuildEnv) (env : Env)
    (directory repository image : String) (options : Options)
    (hr : '/' ∉ repository.data) (hi : '/' ∉ image.data)
    (habs : env.dirIsDir = false) :
    (options.force = false →
      sync_docker_image benv env directory (repository ++ "/" ++ image) options
        = (Outcome.err ("Image directory not found: " ++ (directory ++ "/" ++ repository)),
           Effects.empty))
    ∧ (options.force = true → env.createDirOk = true →
      (sync_docker_image benv env directory (repository ++ "/" ++ image) options).2.dirsCreated
        = [directory ++ "/" ++ repository]
      ∧ 1 ≤ (sync_docker_image benv env directory
          (repository ++ "/" ++ image) options).2.registryFetches) := by
  have hsync := sync_docker_image_two benv env directory repository image options hr hi
  rw [habs] at hsync
  simp only [Bool.false_eq_true, if_false] at hsync
  constructor
  · intro hf
    rw [hsync, hf]
    simp
  · intro hf hcd
    rw [hf, hcd] at hsync
    simp only [if_true] at hsync
    rw [hsync]
    constructor
    · rw [syncAfterDir_dirs]
    · have := syncAfterDir_fetch benv [] env.pages env.procResults directory repository image
        options ⟨[directory ++ "/" ++ repository], [], [], 0⟩
      simpa using this

/-- Witness for `missing_directory_policy` at a concrete absent directory. -/
theorem missing_directory_policy_witness :
    sync_docker_image ⟨none, none, none, none⟩
        ⟨false, true, [], [⟨[⟨"1.0", 10⟩], none⟩], fun _ => Except.ok 0⟩
        "/d" ("lib" ++ "/" ++ "img") ⟨false, 0, false, false⟩
      = (Outcome.err ("Image directory not found: " ++ ("/d" ++ "/" ++ "lib")), Effects.empty)
    ∧ ((sync_docker_image ⟨none, none, none, none⟩
        ⟨false, true, [], [⟨[⟨"1.0", 10⟩], none⟩], fun _ => Except.ok 0⟩
        "/d" ("lib" ++ "/" ++ "img") ⟨false, 0, true, false⟩).2.dirsCreated
          = ["/d" ++ "/" ++ "lib"]
      ∧ 1 ≤ (sync_docker_image ⟨none, none, none, none⟩
          ⟨false, true, [], [⟨[⟨"1.0", 10⟩], none⟩], fun _ => Except.ok 0⟩
          "/d" ("lib" ++ "/" ++ "img") ⟨false, 0, true, false⟩).2.registryFetches) := by
  constructor
  · exact (missing_directory_policy ⟨none, none, none, none⟩
      ⟨false, true, [], [⟨[⟨"1.0", 10⟩], none⟩], fun _ => Except.ok 0⟩
      "/d" "lib" "img" ⟨false, 0, false, false⟩ (by decide) (by decide) rfl).1 rfl
  · exact (missing_directory_policy ⟨none, none, none, none⟩
      ⟨false, true, [], [⟨[⟨"1.0", 10⟩], none⟩], fun _ => Except.ok 0⟩
      "/d" "lib" "img" ⟨false, 0, true, false⟩ (by decide) (by decide) rfl).2 rfl rfl

/-- **C10**: the orchestrator aborts the whole run at the first per-image
error: if an image's sync returns an error, `sync_manifest` returns that
error and no later manifest entry is processed — its result and effects are
independent of everything after the failing entry; with any prefix of
successfully synced images before it, the total effects are exactly the
prefix's effects followed by the failing image's. -/
theorem abort_on_first_image_error (benv : BuildEnv) (world : String → Env)
    (directory : String) (options : Options) (img : String)
    (rest pre : List String) (e : String)
    (herr : (sync_docker_image benv (world img) directory img options).1 = Outcome.err e) :
    sync_manifest benv world directory options (img :: rest)
      = (Outcome.err e, (sync_docker_image benv (world img) directory img options).2)
    ∧ ((∀ j ∈ pre, (sync_docker_image benv (world j) directory j options).1 = Outcome.ok ()) →
      sync_manifest benv world directory options (pre ++ img :: rest)
        = (Outcome.err e,
           (sync_manifest benv world directory options pre).2.append
             (sync_docker_image benv (world img) directory img options).2)) := by
  have hfirst : sync_manifest benv world directory options (img :: rest)
      = (Outcome.err e, (sync_docker_image benv (world img) directory img options).2) := by
    unfold sync_manifest
    dsimp only
    rw [herr]
  refine ⟨hfirst, ?_⟩
  intro hpre
  induction pre with
  | nil =>
    simpa [sync_manifest, Effects.empty_append] using hfirst
  | cons j pre ih =>
    have hj : (sync_docker_image benv (world j) directory j options).1 = Outcome.ok () :=
      hpre j (by simp)
    have hpre' : ∀ k ∈ pre,
        (sync_docker_image benv (world k) directory k options).1 = Outcome.ok () :=
      fun k hk => hpre k (by simp [hk])
    have ihres := ih hpre'
    have hcons : sync_manifest benv world directory options (j :: (pre ++ img :: rest))
        = ((sync_manifest benv world directory options (pre ++ img :: rest)).1,
           (sync_docker_image benv (world j) directory j options).2.append
             (sync_manifest benv world directory options (pre ++ img :: rest)).2) := by
      conv_lhs => rw [sync_manifest.eq_def]
      dsimp only
      rw [hj]
    have hcons2 : sync_manifest benv world directory options (j :: pre)
        = ((sync_manifest benv world directory options pre).1,
           (sync_docker_image benv (world j) directory j options).2.append
             (sync_manifest benv world directory options pre).2) := by
      conv_lhs => rw [sync_manifest.eq_def]
      dsimp only
      rw [hj]
    rw [List.cons_append, hcons, ihres]
    rw [hcons2]
    simp [Effects.append_assoc]

/-- Witness for `abort_on_first_image_error`: a world where `bad/img` has no
directory (error) and `ok/img` succeeds with no work; the run aborts at
`bad/img` and the trailing entry is never reached. -/
theorem abort_on_first_image_error_witness :
    sync_manifest ⟨none, none, none, none⟩
        (fun s => if s = "ok/img" then
            ⟨true, true, [⟨false, true, some "sif", true, "img-1.0.sif", false, false, 5⟩],
             [⟨[], none⟩], fun _ => Except.ok 0⟩
          else ⟨false, false, [], [⟨[], none⟩], fun _ => Except.ok 0⟩)
        "/d" ⟨false, 0, false, false⟩ ["bad/img", "never/touched"]
      = (Outcome.err "Image directory not found: /d/bad",
         (sync_docker_image ⟨none, none, none, none⟩
            ⟨false, false, [], [⟨[], none⟩], fun _ => Except.ok 0⟩
            "/d" "bad/img" ⟨false, 0, false, false⟩).2) := by
  exact (abort_on_first_image_error ⟨none, none, none, none⟩
    (fun s => if s = "ok/img" then
        ⟨true, true, [⟨false, true, some "sif", true, "img-1.0.sif", false, false, 5⟩],
         [⟨[], none⟩], fun _ => Except.ok 0⟩
      else ⟨false, false, [], [⟨[], none⟩], fun _ => Except.ok 0⟩)
    "/d" ⟨false, 0, false, false⟩ "bad/img" ["never/touched"] [] "Image directory not found: /d/bad"
    rfl).1

end SingularitySync
